import Mathlib

/-!
Shallow embedding of the PropertyLab net-equity calculator engine
(client/src/lib/calculator.ts) over exact rational arithmetic.
The year loops and the per-cohort inner loops of the source are rendered
as structural recursions; the guard structure of the source is kept
intact (age > 0 in simulatePortfolio, age >= 0 with a nested age > 0
cash-flow gate in generateYearlyData).
-/

namespace PropertyLab

/-- Expense mode of the calculator inputs: a fixed RM amount or a
percentage of the purchase price. -/
inductive ExpenseType where
  | fixed : ExpenseType
  | percentage : ExpenseType

/-- The CalculatorInputs record of calculator.ts.  Rate fields are
percentages at the boundary (e.g. 3 means 3%), as in the source. -/
structure CalculatorInputs where
  purchasePrice : ℚ
  loanType : ℚ
  maxProperties : ℕ
  belowMarketValue : Bool
  discountPercentage : ℚ
  appreciationRate : ℚ
  rentalYield : ℚ
  interestRate : ℚ
  buyInterval : ℕ
  startingYear : ℤ
  loanTenure : ℕ
  expenseType : ExpenseType
  expenseValue : ℚ

/-- The YearlyData record pushed by generateYearlyData. -/
structure YearlyData where
  year : ℕ
  calendarYear : ℤ
  propertiesOwned : ℕ
  totalAssetValue : ℚ
  totalLoanBalance : ℚ
  netEquity : ℚ
  annualCashFlow : ℚ
  cumulativeCashFlow : ℚ
  annualRentalIncome : ℚ
  annualMortgagePayment : ℚ
  annualExpense : ℚ

/-- The SimulationResult record returned by simulatePortfolio. -/
structure SimulationResult where
  netEquity : ℚ
  totalAssetValue : ℚ
  totalLoanBalance : ℚ
  cumulativeCashFlow : ℚ
  propertiesOwned : ℕ

/-- calculateMonthlyPayment of calculator.ts: standard fixed-payment
annuity formula, with the zero-rate branch short-circuiting to
straight-line division. -/
def calculateMonthlyPayment (loanAmount annualInterestRate : ℚ)
    (years : ℕ) : ℚ :=
  let monthlyRate := annualInterestRate / 12
  let numberOfPayments := years * 12
  if monthlyRate = 0 then
    loanAmount / (numberOfPayments : ℚ)
  else
    loanAmount * monthlyRate * (1 + monthlyRate) ^ numberOfPayments /
      ((1 + monthlyRate) ^ numberOfPayments - 1)

/-- calculateLoanBalance of calculator.ts: standard remaining-balance
formula with elapsed years clamped to the tenure and the result clamped
to be non-negative. -/
def calculateLoanBalance (loanAmount monthlyPayment annualInterestRate : ℚ)
    (yearsPaid loanTenureYears : ℕ) : ℚ :=
  let monthlyRate := annualInterestRate / 12
  let totalPayments := loanTenureYears * 12
  let paymentsMade := min yearsPaid loanTenureYears * 12
  if monthlyRate = 0 then
    max 0 (loanAmount - monthlyPayment * (paymentsMade : ℚ))
  else
    max 0 (loanAmount *
      ((1 + monthlyRate) ^ totalPayments - (1 + monthlyRate) ^ paymentsMade) /
      ((1 + monthlyRate) ^ totalPayments - 1))

/-- The parameters that calculatePropertyPlan derives from the inputs and
passes to both simulatePortfolio and generateYearlyData. -/
structure SimParams where
  marketValue : ℚ
  loanAmount : ℚ
  monthlyPayment : ℚ
  appreciationRate : ℚ
  annualRentalIncome : ℚ
  interestRate : ℚ
  buyInterval : ℕ
  maxProperties : ℕ
  loanTenure : ℕ
  annualExpensePerProperty : ℚ

/-- Age of cohort i in a given simulated year: year - i * buyInterval,
as a signed integer (the source computes it as a plain JS number and
guards on its sign). -/
def cohortAge (b year i : ℕ) : ℤ :=
  (year : ℤ) - ((i * b : ℕ) : ℤ)

/-- The purchase trigger of both year loops:
year % buyInterval === 1 || buyInterval === 1.  For buyInterval = 0 the
JS expression year % 0 is NaN, which never equals 1, so the condition
carries an explicit b ≠ 0 conjunct. -/
def buyCond (year b : ℕ) : Prop :=
  (b ≠ 0 ∧ year % b = 1) ∨ b = 1

instance (year b : ℕ) : Decidable (buyCond year b) := by
  unfold buyCond; infer_instance

/-- propertiesOwned after the purchase step of the given year.  Year 0
performs no purchase (generateYearlyData guards with year > 0 and the
simulatePortfolio loop starts at year 1); afterwards both loops use the
same trigger and cap. -/
def ownedUpTo (p : SimParams) : ℕ → ℕ
  | 0 => 0
  | y + 1 =>
    if buyCond (y + 1) p.buyInterval ∧ ownedUpTo p y < p.maxProperties then
      ownedUpTo p y + 1
    else
      ownedUpTo p y

/-- Age-compounded value of one cohort: marketValue * (1+appreciation)^age. -/
def propertyValueAt (p : SimParams) (age : ℕ) : ℚ :=
  p.marketValue * (1 + p.appreciationRate) ^ age

/-- Remaining loan balance of one cohort, as both loops call it:
calculateLoanBalance with min(age, tenure) elapsed years. -/
def propertyLoanBalanceAt (p : SimParams) (age : ℕ) : ℚ :=
  calculateLoanBalance p.loanAmount p.monthlyPayment p.interestRate
    (min age p.loanTenure) p.loanTenure

/-- Per-cohort annual cash flow: rental - mortgage - expense. -/
def propertyCashFlowPer (p : SimParams) : ℚ :=
  p.annualRentalIncome - p.monthlyPayment * 12 - p.annualExpensePerProperty

/-- Inner loop of simulatePortfolio accumulating totalAssetValue over
cohorts 0..n-1, contributing only when age > 0. -/
def simAssetLoop (p : SimParams) (year : ℕ) : ℕ → ℚ
  | 0 => 0
  | i + 1 =>
    simAssetLoop p year i +
      (if 0 < cohortAge p.buyInterval year i then
        propertyValueAt p (cohortAge p.buyInterval year i).toNat
      else 0)

/-- Inner loop of simulatePortfolio accumulating totalLoanBalance. -/
def simLoanLoop (p : SimParams) (year : ℕ) : ℕ → ℚ
  | 0 => 0
  | i + 1 =>
    simLoanLoop p year i +
      (if 0 < cohortAge p.buyInterval year i then
        propertyLoanBalanceAt p (cohortAge p.buyInterval year i).toNat
      else 0)

/-- Inner loop of simulatePortfolio accumulating annualCashFlow. -/
def simCashLoop (p : SimParams) (year : ℕ) : ℕ → ℚ
  | 0 => 0
  | i + 1 =>
    simCashLoop p year i +
      (if 0 < cohortAge p.buyInterval year i then propertyCashFlowPer p else 0)

/-- Inner loop of generateYearlyData accumulating totalAssetValue over
cohorts 0..n-1, contributing when age >= 0. -/
def genAssetLoop (p : SimParams) (year : ℕ) : ℕ → ℚ
  | 0 => 0
  | i + 1 =>
    genAssetLoop p year i +
      (if 0 ≤ cohortAge p.buyInterval year i then
        propertyValueAt p (cohortAge p.buyInterval year i).toNat
      else 0)

/-- Inner loop of generateYearlyData accumulating totalLoanBalance. -/
def genLoanLoop (p : SimParams) (year : ℕ) : ℕ → ℚ
  | 0 => 0
  | i + 1 =>
    genLoanLoop p year i +
      (if 0 ≤ cohortAge p.buyInterval year i then
        propertyLoanBalanceAt p (cohortAge p.buyInterval year i).toNat
      else 0)

/-- Inner loop of generateYearlyData accumulating annualCashFlow: the
age >= 0 valuation branch contains a nested age > 0 cash-flow gate. -/
def genCashLoop (p : SimParams) (year : ℕ) : ℕ → ℚ
  | 0 => 0
  | i + 1 =>
    genCashLoop p year i +
      (if 0 ≤ cohortAge p.buyInterval year i then
        (if 0 < cohortAge p.buyInterval year i then propertyCashFlowPer p else 0)
      else 0)

/-- The activeProperties count of generateYearlyData: cohorts with
age > 0, used for the annualExpense display field. -/
def activeLoop (p : SimParams) (year : ℕ) : ℕ → ℕ
  | 0 => 0
  | i + 1 =>
    activeLoop p year i +
      (if 0 < cohortAge p.buyInterval year i then 1 else 0)

/-- Cumulative cash flow after the given year of the simulatePortfolio
loop (years 1..H, each adding that year's annualCashFlow). -/
def cumCashSim (p : SimParams) : ℕ → ℚ
  | 0 => 0
  | y + 1 => cumCashSim p y + simCashLoop p (y + 1) (ownedUpTo p (y + 1))

/-- Cumulative cash flow after the given year of the generateYearlyData
loop (year 0 is excluded by the year > 0 guard of the source). -/
def cumCashGen (p : SimParams) : ℕ → ℚ
  | 0 => 0
  | y + 1 => cumCashGen p y + genCashLoop p (y + 1) (ownedUpTo p (y + 1))

/-- simulatePortfolio of calculator.ts: after the year loop the totals
hold the values recomputed during the final year. -/
def simulatePortfolio (p : SimParams) (years : ℕ) : SimulationResult :=
  let owned := ownedUpTo p years
  let totalAssetValue := simAssetLoop p years owned
  let totalLoanBalance := simLoanLoop p years owned
  let cumulativeCashFlow := cumCashSim p years
  { netEquity := totalAssetValue - totalLoanBalance + cumulativeCashFlow
    totalAssetValue := totalAssetValue
    totalLoanBalance := totalLoanBalance
    cumulativeCashFlow := cumulativeCashFlow
    propertiesOwned := owned }

/-- One snapshot pushed by generateYearlyData for a given year. -/
def snapshotAt (p : SimParams) (startingYear : ℤ) (year : ℕ) : YearlyData :=
  let owned := ownedUpTo p year
  let totalAssetValue := genAssetLoop p year owned
  let totalLoanBalance := genLoanLoop p year owned
  let annualCashFlow := genCashLoop p year owned
  let cumulativeCashFlow := cumCashGen p year
  { year := year
    calendarYear := startingYear + (year : ℤ)
    propertiesOwned := owned
    totalAssetValue := totalAssetValue
    totalLoanBalance := totalLoanBalance
    netEquity := totalAssetValue - totalLoanBalance + cumulativeCashFlow
    annualCashFlow := annualCashFlow
    cumulativeCashFlow := cumulativeCashFlow
    annualRentalIncome := (owned : ℚ) * p.annualRentalIncome
    annualMortgagePayment := (owned : ℚ) * p.monthlyPayment * 12
    annualExpense := (activeLoop p year owned : ℚ) * p.annualExpensePerProperty }

/-- generateYearlyData of calculator.ts: one snapshot per year 0..years. -/
def generateYearlyData (p : SimParams) (startingYear : ℤ)
    (years : ℕ) : List YearlyData :=
  (List.range (years + 1)).map (snapshotAt p startingYear)

/-- The derivation block at the head of calculatePropertyPlan: percentage
inputs divided by 100, market value from purchase price, loan sized off
purchase price, fixed annual rental income, per-property expense. -/
def derivedParams (inp : CalculatorInputs) : SimParams :=
  let appreciationRate := inp.appreciationRate / 100
  let rentalYield := inp.rentalYield / 100
  let interestRate := inp.interestRate / 100
  let discountRate : ℚ :=
    if inp.belowMarketValue then inp.discountPercentage / 100 else 0
  let marketValue :=
    if inp.belowMarketValue then inp.purchasePrice / (1 - discountRate)
    else inp.purchasePrice
  let loanAmount := inp.purchasePrice * inp.loanType
  let monthlyPayment :=
    calculateMonthlyPayment loanAmount interestRate inp.loanTenure
  let annualRentalIncome := inp.purchasePrice * rentalYield
  let annualExpensePerProperty :=
    match inp.expenseType with
    | ExpenseType.fixed => inp.expenseValue
    | ExpenseType.percentage => inp.purchasePrice * (inp.expenseValue / 100)
  { marketValue := marketValue
    loanAmount := loanAmount
    monthlyPayment := monthlyPayment
    appreciationRate := appreciationRate
    annualRentalIncome := annualRentalIncome
    interestRate := interestRate
    buyInterval := inp.buyInterval
    maxProperties := inp.maxProperties
    loanTenure := inp.loanTenure
    annualExpensePerProperty := annualExpensePerProperty }

/-- The FullSimulationResult record returned by calculatePropertyPlan. -/
structure FullSimulationResult where
  results10 : SimulationResult
  results20 : SimulationResult
  results30 : SimulationResult
  yearlyData : List YearlyData
  monthlyPayment : ℚ
  loanAmount : ℚ
  marketValue : ℚ
  annualRentalIncome : ℚ
  annualExpensePerProperty : ℚ

/-- calculatePropertyPlan of calculator.ts. -/
def calculatePropertyPlan (inp : CalculatorInputs) : FullSimulationResult :=
  let p := derivedParams inp
  { results10 := simulatePortfolio p 10
    results20 := simulatePortfolio p 20
    results30 := simulatePortfolio p 30
    yearlyData := generateYearlyData p inp.startingYear 30
    monthlyPayment := p.monthlyPayment
    loanAmount := p.loanAmount
    marketValue := p.marketValue
    annualRentalIncome := p.annualRentalIncome
    annualExpensePerProperty := p.annualExpensePerProperty }

/-!
### Core invariants of the ownership schedule

Purchases fire at years congruent to 1 modulo the interval (or every
year when the interval is 1), so the i-th cohort, whose age formula
treats it as purchased at elapsed time i * buyInterval, is owned only
from age 1 onwards: no owned cohort ever has age 0.
-/

/-- The ownership count never exceeds maxProperties. -/
theorem ownedUpTo_le_max (p : SimParams) : ∀ y, ownedUpTo p y ≤ p.maxProperties := by
  intro y
  induction y with
  | zero => exact Nat.zero_le _
  | succ y ih =>
    simp only [ownedUpTo]
    split
    · rename_i h
      exact h.2
    · exact ih

/-- The ownership count is non-decreasing from one year to the next. -/
theorem ownedUpTo_mono (p : SimParams) (y : ℕ) :
    ownedUpTo p y ≤ ownedUpTo p (y + 1) := by
  simp only [ownedUpTo]
  split
  · exact Nat.le_succ _
  · exact Nat.le_refl _

/-- Growth bound on the ownership count: owned * interval stays below
the elapsed time plus one interval. -/
theorem ownedUpTo_mul_bound (p : SimParams) (hb : 1 ≤ p.buyInterval) :
    ∀ y, ownedUpTo p y * p.buyInterval ≤ y + p.buyInterval - 1 := by
  intro y
  induction y with
  | zero => simp [ownedUpTo]
  | succ y ih =>
    simp only [ownedUpTo]
    split
    · rename_i h
      obtain ⟨hc, _⟩ := h
      have key : ownedUpTo p y * p.buyInterval ≤ y := by
        rcases hc with ⟨hne, hmod⟩ | hone
        · by_cases hone : p.buyInterval = 1
          · rw [hone] at ih ⊢
            omega
          · have e := Nat.div_add_mod (y + 1) p.buyInterval
            rw [hmod] at e
            have ey : p.buyInterval * ((y + 1) / p.buyInterval) = y :=
              Nat.add_right_cancel e
            have hlt2 : ownedUpTo p y * p.buyInterval <
                ((y + 1) / p.buyInterval + 1) * p.buyInterval := by
              calc ownedUpTo p y * p.buyInterval
                  ≤ y + p.buyInterval - 1 := ih
                _ < y + p.buyInterval := by omega
                _ = p.buyInterval * ((y + 1) / p.buyInterval) + p.buyInterval := by
                    rw [ey]
                _ = ((y + 1) / p.buyInterval + 1) * p.buyInterval := by ring
            have hle : ownedUpTo p y ≤ (y + 1) / p.buyInterval :=
              Nat.lt_succ_iff.mp (Nat.lt_of_mul_lt_mul_right hlt2)
            calc ownedUpTo p y * p.buyInterval
                ≤ (y + 1) / p.buyInterval * p.buyInterval :=
                  Nat.mul_le_mul_right _ hle
              _ = p.buyInterval * ((y + 1) / p.buyInterval) := Nat.mul_comm _ _
              _ = y := ey
        · rw [hone] at ih ⊢
          omega
      calc (ownedUpTo p y + 1) * p.buyInterval
          = ownedUpTo p y * p.buyInterval + p.buyInterval := Nat.succ_mul _ _
        _ ≤ y + p.buyInterval := Nat.add_le_add_right key _
        _ = y + 1 + p.buyInterval - 1 := by omega
    · exact le_trans ih (by omega)

/-- Every cohort counted in the ownership of a year was purchased at a
strictly earlier elapsed time: i * buyInterval < year. -/
theorem age_lt_of_lt_owned (p : SimParams) (hb : 1 ≤ p.buyInterval) {y i : ℕ}
    (hi : i < ownedUpTo p y) : i * p.buyInterval < y := by
  have h2 := ownedUpTo_mul_bound p hb y
  have h3 : i * p.buyInterval + p.buyInterval ≤ y + p.buyInterval - 1 := by
    calc i * p.buyInterval + p.buyInterval
        = (i + 1) * p.buyInterval := (Nat.succ_mul i _).symm
      _ ≤ ownedUpTo p y * p.buyInterval := Nat.mul_le_mul_right _ hi
      _ ≤ y + p.buyInterval - 1 := h2
  obtain ⟨A, hA⟩ : ∃ A, i * p.buyInterval = A := ⟨_, rfl⟩
  rw [hA] at h3 ⊢
  omega

/-- Every owned cohort has strictly positive age. -/
theorem cohortAge_pos (p : SimParams) (hb : 1 ≤ p.buyInterval) {y i : ℕ}
    (hi : i < ownedUpTo p y) : 0 < cohortAge p.buyInterval y i := by
  have h := age_lt_of_lt_owned p hb hi
  unfold cohortAge
  obtain ⟨A, hA⟩ : ∃ A, i * p.buyInterval = A := ⟨_, rfl⟩
  rw [hA] at h ⊢
  omega

/-- For an owned cohort the integer age agrees with natural subtraction. -/
theorem cohortAge_toNat (p : SimParams) {y i : ℕ}
    (h : i * p.buyInterval < y) :
    (cohortAge p.buyInterval y i).toNat = y - i * p.buyInterval := by
  unfold cohortAge
  obtain ⟨A, hA⟩ : ∃ A, i * p.buyInterval = A := ⟨_, rfl⟩
  rw [hA] at h ⊢
  omega

/-!
### Equality of the two inner-loop guard disciplines

Within the range of owned cohorts, the age >= 0 guards of
generateYearlyData and the age > 0 guards of simulatePortfolio select
the same contributions, because no owned cohort has age 0.
-/

/-- The asset loops of the two entry points agree on owned cohorts. -/
theorem genAssetLoop_eq_sim (p : SimParams) (hb : 1 ≤ p.buyInterval) (y : ℕ) :
    ∀ n, n ≤ ownedUpTo p y → genAssetLoop p y n = simAssetLoop p y n := by
  intro n
  induction n with
  | zero => intro _; rfl
  | succ n ih =>
    intro hn
    have hi : n < ownedUpTo p y := hn
    have hpos := cohortAge_pos p hb hi
    simp only [genAssetLoop, simAssetLoop, ih (Nat.le_of_succ_le hn)]
    rw [if_pos (le_of_lt hpos), if_pos hpos]

/-- The loan loops of the two entry points agree on owned cohorts. -/
theorem genLoanLoop_eq_sim (p : SimParams) (hb : 1 ≤ p.buyInterval) (y : ℕ) :
    ∀ n, n ≤ ownedUpTo p y → genLoanLoop p y n = simLoanLoop p y n := by
  intro n
  induction n with
  | zero => intro _; rfl
  | succ n ih =>
    intro hn
    have hi : n < ownedUpTo p y := hn
    have hpos := cohortAge_pos p hb hi
    simp only [genLoanLoop, simLoanLoop, ih (Nat.le_of_succ_le hn)]
    rw [if_pos (le_of_lt hpos), if_pos hpos]

/-- The nested cash-flow gate of generateYearlyData collapses to the
plain age > 0 gate of simulatePortfolio, for any cohort range. -/
theorem genCashLoop_eq_sim (p : SimParams) (y : ℕ) :
    ∀ n, genCashLoop p y n = simCashLoop p y n := by
  intro n
  induction n with
  | zero => rfl
  | succ n ih =>
    simp only [genCashLoop, simCashLoop, ih]
    by_cases hpos : 0 < cohortAge p.buyInterval y n
    · rw [if_pos (le_of_lt hpos), if_pos hpos]
    · by_cases hge : 0 ≤ cohortAge p.buyInterval y n
      · rw [if_pos hge, if_neg hpos]
      · rw [if_neg hge, if_neg hpos]

/-- The cash-flow loop is the active-cohort count times the constant
per-property cash flow. -/
theorem simCashLoop_eq_active (p : SimParams) (y : ℕ) :
    ∀ n, simCashLoop p y n = (activeLoop p y n : ℚ) * propertyCashFlowPer p := by
  intro n
  induction n with
  | zero => simp [simCashLoop, activeLoop]
  | succ n ih =>
    simp only [simCashLoop, activeLoop, ih]
    by_cases hpos : 0 < cohortAge p.buyInterval y n
    · rw [if_pos hpos, if_pos hpos]
      push_cast
      ring
    · rw [if_neg hpos, if_neg hpos]
      push_cast
      ring

/-- On the owned range every cohort is active (age > 0). -/
theorem activeLoop_eq_owned (p : SimParams) (hb : 1 ≤ p.buyInterval) (y : ℕ) :
    ∀ n, n ≤ ownedUpTo p y → activeLoop p y n = n := by
  intro n
  induction n with
  | zero => intro _; rfl
  | succ n ih =>
    intro hn
    have hi : n < ownedUpTo p y := hn
    have hpos := cohortAge_pos p hb hi
    simp only [activeLoop, ih (Nat.le_of_succ_le hn)]
    rw [if_pos hpos]

/-- The two cumulative cash-flow recursions coincide. -/
theorem cumCashGen_eq_sim (p : SimParams) : ∀ y, cumCashGen p y = cumCashSim p y := by
  intro y
  induction y with
  | zero => rfl
  | succ y ih =>
    simp only [cumCashGen, cumCashSim, ih, genCashLoop_eq_sim]

/-- The milestone simulator agrees, field by field, with the yearly
snapshot of the same year. -/
theorem simulate_matches_snapshot (p : SimParams) (hb : 1 ≤ p.buyInterval)
    (sy : ℤ) (y : ℕ) :
    ( simulatePortfolio p y).netEquity = (snapshotAt p sy y).netEquity ∧
    ( simulatePortfolio p y).totalAssetValue = (snapshotAt p sy y).totalAssetValue ∧
    ( simulatePortfolio p y).totalLoanBalance = (snapshotAt p sy y).totalLoanBalance ∧
    ( simulatePortfolio p y).cumulativeCashFlow = (snapshotAt p sy y).cumulativeCashFlow ∧
    ( simulatePortfolio p y).propertiesOwned = (snapshotAt p sy y).propertiesOwned := by
  have ha := genAssetLoop_eq_sim p hb y (ownedUpTo p y) le_rfl
  have hl := genLoanLoop_eq_sim p hb y (ownedUpTo p y) le_rfl
  have hc := cumCashGen_eq_sim p y
  unfold simulatePortfolio snapshotAt
  refine ⟨?_, ?_, ?_, ?_, rfl⟩ <;> simp only [ha, hl, hc]

/-- Indexing the yearly series at an in-range year yields that year's
snapshot. -/
theorem generateYearlyData_getElem (p : SimParams) (sy : ℤ) (years y : ℕ)
    (h : y ≤ years) :
    (generateYearlyData p sy years)[y]? = some (snapshotAt p sy y) := by
  unfold generateYearlyData
  rw [List.getElem?_map, List.getElem?_range (by omega)]
  rfl

/-- Any entry read from the yearly series is the snapshot of its index. -/
theorem generateYearlyData_entry (p : SimParams) (sy : ℤ) (years y : ℕ)
    (s : YearlyData)
    (hs : (generateYearlyData p sy years)[y]? = some s) :
    s = snapshotAt p sy y := by
  by_cases h : y ≤ years
  · rw [generateYearlyData_getElem p sy years y h] at hs
    exact (Option.some_inj.mp hs).symm
  · exfalso
    have hlen : (generateYearlyData p sy years).length = years + 1 := by
      unfold generateYearlyData
      rw [List.length_map, List.length_range]
    have hnone : (generateYearlyData p sy years)[y]? = none := by
      apply List.getElem?_eq_none
      rw [hlen]
      omega
    rw [hnone] at hs
    exact Option.noConfusion hs

/-!
### Spec-side comparison definitions

These render the spec's own wording of per-cohort aggregation so it can
be compared with the loops translated from the source.
-/

/-- The spec's cohort valuation sum: cohorts 0..n-1, the i-th aged
year - i * interval, each contributing marketValue * (1+appreciation)^age.
Natural subtraction is exact at every use site (owned cohorts have
positive age). -/
def cohortCompoundedSum (mv a : ℚ) (b year : ℕ) : ℕ → ℚ
  | 0 => 0
  | i + 1 => cohortCompoundedSum mv a b year i + mv * (1 + a) ^ (year - i * b)

/-- The spec's cohort loan sum: each owned cohort contributes the
remaining balance at its age. -/
def cohortLoanSum (p : SimParams) (year : ℕ) : ℕ → ℚ
  | 0 => 0
  | i + 1 => cohortLoanSum p year i + propertyLoanBalanceAt p (year - i * p.buyInterval)

/-- Claim C2's reading of the asset aggregate: every cohort index below
the FINAL ownership count (after the 30-year series) contributes in
every year where its age is non-negative. -/
def claimC2AssetTotal (p : SimParams) (year : ℕ) : ℚ :=
  genAssetLoop p year (ownedUpTo p 30)

/-- On owned cohorts the guarded asset loop of generateYearlyData equals
the spec's unguarded compounded sum. -/
theorem genAssetLoop_eq_compounded (p : SimParams) (hb : 1 ≤ p.buyInterval)
    (y : ℕ) :
    ∀ n, n ≤ ownedUpTo p y →
      genAssetLoop p y n =
        cohortCompoundedSum p.marketValue p.appreciationRate p.buyInterval y n := by
  intro n
  induction n with
  | zero => intro _; rfl
  | succ n ih =>
    intro hn
    have hi : n < ownedUpTo p y := hn
    have hpos := cohortAge_pos p hb hi
    have hlt := age_lt_of_lt_owned p hb hi
    simp only [genAssetLoop, cohortCompoundedSum, ih (Nat.le_of_succ_le hn)]
    rw [if_pos (le_of_lt hpos), propertyValueAt, cohortAge_toNat p hlt]

/-- On owned cohorts the guarded loan loop of generateYearlyData equals
the spec's unguarded loan sum. -/
theorem genLoanLoop_eq_loanSum (p : SimParams) (hb : 1 ≤ p.buyInterval)
    (y : ℕ) :
    ∀ n, n ≤ ownedUpTo p y →
      genLoanLoop p y n = cohortLoanSum p y n := by
  intro n
  induction n with
  | zero => intro _; rfl
  | succ n ih =>
    intro hn
    have hi : n < ownedUpTo p y := hn
    have hpos := cohortAge_pos p hb hi
    have hlt := age_lt_of_lt_owned p hb hi
    simp only [genLoanLoop, cohortLoanSum, ih (Nat.le_of_succ_le hn)]
    rw [if_pos (le_of_lt hpos), cohortAge_toNat p hlt]

/-!
### Stock Reinvestment Overlay

The UI imports calculateStockReinvestment (Home.tsx and the unnamed
page revisions) but the module implementing it is absent from the
snapshot, so the engine below is modelled from the spec (sections 3,
4.4 and 8) rather than translated from source.
-/

/-- Stock overlay assumptions: dividend yield, purchase discount and
appreciation as decimal fractions, the DRIP flag, and the
mortgage-approved amount from which per-property cashback derives. -/
structure StockAssumptions where
  dividendYield : ℚ
  discount : ℚ
  appreciation : ℚ
  drip : Bool
  approvedAmount : ℚ

/-- One year of the stock overlay series. -/
structure StockYearlyData where
  year : ℕ
  cashFlowInvested : ℚ
  cashbackInvested : ℚ
  dividendReinvested : ℚ
  stockPortfolioValue : ℚ
  stockCostBasis : ℚ
  unrealizedGain : ℚ
  annualDividendIncome : ℚ
  cumulativeDividends : ℚ
  combinedNetWorth : ℚ

/-- Running state of the overlay after processing one year. -/
structure StockState where
  price : ℚ
  shares : ℚ
  costBasis : ℚ
  value : ℚ
  dividend : ℚ
  cumulativeDividends : ℚ
  cashFlowInvested : ℚ
  cashbackInvested : ℚ
  dividendReinvested : ℚ

/-- Modelled from the spec: one year of the absent overlay engine
(spec 4.4).  The price is flat through year 1 and compounds from year 2;
a cashback event fires when ownership increments; positive property cash
flow is invested in full; the dividend is declared on the PREVIOUS
year's closing portfolio value and reinvested only under DRIP; the
portfolio value is recomputed last. -/
def stockYearStep (sa : StockAssumptions) (cashbackPerProperty : ℚ)
    (newProperties : ℕ) (propertyCashFlow : ℚ) (year : ℕ)
    (st : StockState) : StockState :=
  let price := if 1 < year then st.price * (1 + sa.appreciation) else st.price
  let buyPrice := price * (1 - sa.discount)
  let cashbackAmt :=
    if 0 < newProperties ∧ 0 < cashbackPerProperty then
      (newProperties : ℚ) * cashbackPerProperty
    else 0
  let cfAmt := if 0 < propertyCashFlow then propertyCashFlow else 0
  let dividend := st.value * sa.dividendYield
  let dripAmt := if sa.drip ∧ 0 < dividend then dividend else 0
  let shares := st.shares + cashbackAmt / buyPrice + cfAmt / buyPrice + dripAmt / buyPrice
  { price := price
    shares := shares
    costBasis := st.costBasis + cashbackAmt + cfAmt + dripAmt
    value := shares * price
    dividend := dividend
    cumulativeDividends := st.cumulativeDividends + dividend
    cashFlowInvested := cfAmt
    cashbackInvested := cashbackAmt
    dividendReinvested := dripAmt }

/-- The overlay account before year 0: normalized unit price, no shares. -/
def initialStockState : StockState :=
  { price := 1, shares := 0, costBasis := 0, value := 0, dividend := 0,
    cumulativeDividends := 0, cashFlowInvested := 0, cashbackInvested := 0,
    dividendReinvested := 0 }

/-- Modelled from the spec: overlay state after processing a given year,
driven by the property series (per-year ownership counts and annual
cash flows). -/
def stockStateAt (sa : StockAssumptions) (cashbackPerProperty : ℚ)
    (owned : ℕ → ℕ) (acf : ℕ → ℚ) : ℕ → StockState
  | 0 => stockYearStep sa cashbackPerProperty (owned 0) (acf 0) 0 initialStockState
  | y + 1 =>
    stockYearStep sa cashbackPerProperty (owned (y + 1) - owned y) (acf (y + 1))
      (y + 1) (stockStateAt sa cashbackPerProperty owned acf y)

/-- Snapshot of the overlay for one year, combined with the property
net equity of the same year. -/
def stockSnapshotAt (sa : StockAssumptions) (cashbackPerProperty : ℚ)
    (owned : ℕ → ℕ) (acf : ℕ → ℚ) (netEq : ℕ → ℚ) (y : ℕ) : StockYearlyData :=
  let st := stockStateAt sa cashbackPerProperty owned acf y
  { year := y
    cashFlowInvested := st.cashFlowInvested
    cashbackInvested := st.cashbackInvested
    dividendReinvested := st.dividendReinvested
    stockPortfolioValue := st.value
    stockCostBasis := st.costBasis
    unrealizedGain := st.value - st.costBasis
    annualDividendIncome := st.dividend
    cumulativeDividends := st.cumulativeDividends
    combinedNetWorth := netEq y + st.value }

/-- Modelled from the spec: calculateStockReinvestment, the absent
overlay engine, producing the year 0..30 stock series; the per-property
cashback is max(0, approvedAmount - purchasePrice). -/
def calculateStockReinvestment (sa : StockAssumptions) (purchasePrice : ℚ)
    (owned : ℕ → ℕ) (acf : ℕ → ℚ) (netEq : ℕ → ℚ) : List StockYearlyData :=
  let cashbackPerProperty := max 0 (sa.approvedAmount - purchasePrice)
  (List.range 31).map (stockSnapshotAt sa cashbackPerProperty owned acf netEq)

/-!
### Concrete instances used as witnesses and counterexamples
-/

/-- The spec's concrete scenario: price 500000, full loan, 3%
appreciation, 8% yield, 4% interest, tenure 30, one purchase per year,
ten properties at most. -/
def inpW : CalculatorInputs :=
  { purchasePrice := 500000, loanType := 1, maxProperties := 10,
    belowMarketValue := false, discountPercentage := 0, appreciationRate := 3,
    rentalYield := 8, interestRate := 4, buyInterval := 1, startingYear := 2026,
    loanTenure := 30, expenseType := ExpenseType.fixed, expenseValue := 0 }

/-- A below-market-value variant of the concrete scenario. -/
def inpBMV : CalculatorInputs :=
  { purchasePrice := 500000, loanType := 1, maxProperties := 10,
    belowMarketValue := true, discountPercentage := 10, appreciationRate := 3,
    rentalYield := 8, interestRate := 4, buyInterval := 1, startingYear := 2026,
    loanTenure := 30, expenseType := ExpenseType.fixed, expenseValue := 0 }

/-- Small derived-parameter instance with trivial loan arithmetic,
annual purchases and a cap of two properties. -/
def pC2 : SimParams :=
  { marketValue := 100, loanAmount := 0, monthlyPayment := 0,
    appreciationRate := 1, annualRentalIncome := 0, interestRate := 0,
    buyInterval := 1, maxProperties := 2, loanTenure := 1,
    annualExpensePerProperty := 0 }

/-- Small derived-parameter instance exercising all cash-flow terms. -/
def pW : SimParams :=
  { marketValue := 100, loanAmount := 90, monthlyPayment := 1,
    appreciationRate := 0, annualRentalIncome := 8, interestRate := 0,
    buyInterval := 1, maxProperties := 3, loanTenure := 5,
    annualExpensePerProperty := 2 }

/-- Trivial stock assumptions for the overlay witness. -/
def saW : StockAssumptions :=
  { dividendYield := 0, discount := 0, appreciation := 0, drip := false,
    approvedAmount := 0 }

/-!
### The claims
-/

/-- C1: for every input record (interval at least 1, as the data-model
invariant requires) and every horizon H in {10, 20, 30}, the milestone
result of simulatePortfolio(H) equals, field by field, the entry at
index H of the 31-element series of generateYearlyData(30), both called
with the derived parameters exactly as calculatePropertyPlan calls
them. -/
theorem claim_C1 (inp : CalculatorInputs) (hb : 1 ≤ inp.buyInterval)
    (H : ℕ) (hH : H = 10 ∨ H = 20 ∨ H = 30) :
    (calculatePropertyPlan inp).yearlyData.length = 31 ∧
    ∃ s, (calculatePropertyPlan inp).yearlyData[H]? = some s ∧
      ( simulatePortfolio (derivedParams inp) H).netEquity = s.netEquity ∧
      ( simulatePortfolio (derivedParams inp) H).totalAssetValue = s.totalAssetValue ∧
      ( simulatePortfolio (derivedParams inp) H).totalLoanBalance = s.totalLoanBalance ∧
      ( simulatePortfolio (derivedParams inp) H).cumulativeCashFlow = s.cumulativeCashFlow ∧
      ( simulatePortfolio (derivedParams inp) H).propertiesOwned = s.propertiesOwned := by
  have hlen : (calculatePropertyPlan inp).yearlyData.length = 31 := by
    show (generateYearlyData (derivedParams inp) inp.startingYear 30).length = 31
    unfold generateYearlyData
    rw [List.length_map, List.length_range]
  refine ⟨hlen, snapshotAt (derivedParams inp) inp.startingYear H, ?_,
    simulate_matches_snapshot (derivedParams inp) hb inp.startingYear H⟩
  show (generateYearlyData (derivedParams inp) inp.startingYear 30)[H]? = _
  exact generateYearlyData_getElem _ _ 30 H (by rcases hH with h | h | h <;> omega)

/-- C1 witness at the concrete scenario and horizon 10. -/
theorem claim_C1_witness :
    1 ≤ inpW.buyInterval ∧
    ((calculatePropertyPlan inpW).yearlyData.length = 31 ∧
      ∃ s, (calculatePropertyPlan inpW).yearlyData[10]? = some s ∧
        ( simulatePortfolio (derivedParams inpW) 10).netEquity = s.netEquity ∧
        ( simulatePortfolio (derivedParams inpW) 10).totalAssetValue = s.totalAssetValue ∧
        ( simulatePortfolio (derivedParams inpW) 10).totalLoanBalance = s.totalLoanBalance ∧
        ( simulatePortfolio (derivedParams inpW) 10).cumulativeCashFlow = s.cumulativeCashFlow ∧
        ( simulatePortfolio (derivedParams inpW) 10).propertiesOwned = s.propertiesOwned) :=
  ⟨by decide, claim_C1 inpW (by decide) 10 (Or.inl rfl)⟩

/-- C2 counterexample: with annual purchases, cap 2, market value 100
and 100% appreciation, the final ownership count is 2, yet at year 1
cohort 1 (age exactly 0) contributes nothing: the year-1 asset total is
200 while the claim's every-year-with-age-nonnegative contribution sum
over the final cohorts is 300. -/
theorem claim_C2_counterexample :
    ownedUpTo pC2 30 = 2 ∧
    (snapshotAt pC2 0 1).totalAssetValue = 200 ∧
    claimC2AssetTotal pC2 1 = 300 ∧
    ¬ (snapshotAt pC2 0 1).totalAssetValue = claimC2AssetTotal pC2 1 := by
  have h30 : ownedUpTo pC2 30 = 2 := by
    set_option maxRecDepth 4000 in decide
  have h1 : (snapshotAt pC2 0 1).totalAssetValue = 200 := by
    show genAssetLoop pC2 1 (ownedUpTo pC2 1) = 200
    norm_num [genAssetLoop, ownedUpTo, buyCond, cohortAge, propertyValueAt, pC2]
  have h2 : claimC2AssetTotal pC2 1 = 300 := by
    unfold claimC2AssetTotal
    rw [h30]
    norm_num [genAssetLoop, cohortAge, propertyValueAt, pC2]
  refine ⟨h30, h1, h2, ?_⟩
  rw [h1, h2]
  norm_num

/-- C2 amended: the i-th cohort is purchased at elapsed time
i * buyInterval, but it is counted in propertiesOwned only from age 1
onwards; in every year it is owned it contributes its age-compounded
market value and loan balance, and its cash flow, so the effective
contribution gate is age > 0 throughout. -/
theorem claim_C2_amended (p : SimParams) (hb : 1 ≤ p.buyInterval) (sy : ℤ)
    (y : ℕ) :
    (∀ i, i < ownedUpTo p y → 0 < cohortAge p.buyInterval y i) ∧
    (snapshotAt p sy y).totalAssetValue =
      cohortCompoundedSum p.marketValue p.appreciationRate p.buyInterval y
        (ownedUpTo p y) ∧
    (snapshotAt p sy y).totalLoanBalance = cohortLoanSum p y (ownedUpTo p y) ∧
    (snapshotAt p sy y).annualCashFlow =
      (ownedUpTo p y : ℚ) * propertyCashFlowPer p := by
  refine ⟨fun i hi => cohortAge_pos p hb hi,
    genAssetLoop_eq_compounded p hb y _ le_rfl,
    genLoanLoop_eq_loanSum p hb y _ le_rfl, ?_⟩
  show genCashLoop p y (ownedUpTo p y) = _
  rw [genCashLoop_eq_sim, simCashLoop_eq_active,
    activeLoop_eq_owned p hb y _ le_rfl]

/-- C2 amended witness at the small instance, year 1. -/
theorem claim_C2_amended_witness :
    1 ≤ pC2.buyInterval ∧
    ((∀ i, i < ownedUpTo pC2 1 → 0 < cohortAge pC2.buyInterval 1 i) ∧
      (snapshotAt pC2 0 1).totalAssetValue =
        cohortCompoundedSum pC2.marketValue pC2.appreciationRate pC2.buyInterval 1
          (ownedUpTo pC2 1) ∧
      (snapshotAt pC2 0 1).totalLoanBalance = cohortLoanSum pC2 1 (ownedUpTo pC2 1) ∧
      (snapshotAt pC2 0 1).annualCashFlow =
        (ownedUpTo pC2 1 : ℚ) * propertyCashFlowPer pC2) :=
  ⟨by decide, claim_C2_amended pC2 (by decide) 0 1⟩

/-- C3 counterexample: with zero rate and a zero payment argument the
balance at maturity is the full principal, not 0 — the claim fails when
quantified over EVERY monthlyPayment. -/
theorem claim_C3_counterexample :
    calculateLoanBalance 100 0 0 1 1 = 100 ∧
    ¬ calculateLoanBalance 100 0 0 1 1 = 0 := by
  have h : calculateLoanBalance 100 0 0 1 1 = 100 := by
    norm_num [calculateLoanBalance]
  refine ⟨h, ?_⟩
  rw [h]
  norm_num

/-- C3 amended: calculateLoanBalance is never negative, and returns
exactly 0 for yearsPaid at or beyond the tenure (staying 0 thereafter)
provided the rate is positive, or — in the zero-rate branch, where the
payment argument is actually used — the payments cover the principal
(as they do for the amortizing payment the callers pass). -/
theorem claim_C3_amended (L M r : ℚ) (_hL : 0 ≤ L) (_hM : 0 ≤ M) (_hr : 0 ≤ r)
    (yp t : ℕ) (_ht : 0 < t) :
    0 ≤ calculateLoanBalance L M r yp t ∧
    (t ≤ yp → (0 < r ∨ L ≤ M * (12 * (t : ℚ))) →
      calculateLoanBalance L M r yp t = 0) := by
  constructor
  · simp only [calculateLoanBalance]
    split
    · exact le_max_left 0 _
    · exact le_max_left 0 _
  · intro hty hcase
    have hmin : min yp t = t := Nat.min_eq_right hty
    simp only [calculateLoanBalance, hmin]
    split
    · rename_i h0
      have hr0 : r = 0 := by
        rcases div_eq_zero_iff.mp h0 with h | h
        · exact h
        · norm_num at h
      rcases hcase with hrpos | hML
      · exact absurd hr0 (ne_of_gt hrpos)
      · have h2 : M * ((t : ℚ) * 12) = M * (12 * (t : ℚ)) := by ring
        have hle : L - M * ((t * 12 : ℕ) : ℚ) ≤ 0 := by
          push_cast
          linarith [hML, h2]
        exact max_eq_left hle
    · rw [sub_self]
      simp

/-- C3 amended witness: zero rate with the straight-line payment. -/
theorem claim_C3_witness :
    0 ≤ calculateLoanBalance 100 (100 / 12) 0 2 1 ∧
    calculateLoanBalance 100 (100 / 12) 0 2 1 = 0 :=
  ⟨(claim_C3_amended 100 (100 / 12) 0 (by norm_num) (by norm_num) le_rfl 2 1
      (by norm_num)).1,
    (claim_C3_amended 100 (100 / 12) 0 (by norm_num) (by norm_num) le_rfl 2 1
      (by norm_num)).2 (by norm_num) (Or.inr (by norm_num))⟩

/-- C4: at zero annual rate the monthly payment short-circuits to
straight-line division of the principal over years * 12 months. -/
theorem claim_C4 (P : ℚ) (years : ℕ) (_hy : 0 < years) :
    calculateMonthlyPayment P 0 years = P / ((years : ℚ) * 12) := by
  simp only [calculateMonthlyPayment]
  rw [if_pos (by norm_num : (0 : ℚ) / 12 = 0)]
  push_cast
  ring

/-- C4 witness at principal 500000 over 30 years. -/
theorem claim_C4_witness :
    0 < 30 ∧ calculateMonthlyPayment 500000 0 30 = 500000 / (((30 : ℕ) : ℚ) * 12) :=
  ⟨by decide, claim_C4 500000 30 (by decide)⟩

/-- C5: calculatePropertyPlan derives marketValue as
purchasePrice / (1 - discount/100) when belowMarketValue and as
purchasePrice otherwise; each owned cohort's asset value compounds as
marketValue * (1 + appreciationRate)^age, while the loan is sized off
the purchase price (loanAmount = purchasePrice * loanType). -/
theorem claim_C5 (inp : CalculatorInputs) (hb : 1 ≤ inp.buyInterval)
    (y : ℕ) (s : YearlyData)
    (hs : (calculatePropertyPlan inp).yearlyData[y]? = some s) :
    (calculatePropertyPlan inp).marketValue =
      (if inp.belowMarketValue then
        inp.purchasePrice / (1 - inp.discountPercentage / 100)
      else inp.purchasePrice) ∧
    (calculatePropertyPlan inp).loanAmount = inp.purchasePrice * inp.loanType ∧
    s.totalAssetValue =
      cohortCompoundedSum (calculatePropertyPlan inp).marketValue
        (inp.appreciationRate / 100) inp.buyInterval y s.propertiesOwned := by
  have hmv : (calculatePropertyPlan inp).marketValue =
      (if inp.belowMarketValue then
        inp.purchasePrice / (1 - inp.discountPercentage / 100)
      else inp.purchasePrice) := by
    show (derivedParams inp).marketValue = _
    by_cases h : inp.belowMarketValue <;> simp [derivedParams, h]
  refine ⟨hmv, rfl, ?_⟩
  have hsnap := generateYearlyData_entry (derivedParams inp) inp.startingYear 30 y s hs
  subst hsnap
  show genAssetLoop (derivedParams inp) y (ownedUpTo (derivedParams inp) y) =
    cohortCompoundedSum (derivedParams inp).marketValue
      (derivedParams inp).appreciationRate (derivedParams inp).buyInterval y
      (ownedUpTo (derivedParams inp) y)
  exact genAssetLoop_eq_compounded (derivedParams inp) hb y _ le_rfl

/-- C5 witness at the below-market-value scenario, year 1. -/
theorem claim_C5_witness :
    1 ≤ inpBMV.buyInterval ∧
    ((calculatePropertyPlan inpBMV).marketValue =
      (if inpBMV.belowMarketValue then
        inpBMV.purchasePrice / (1 - inpBMV.discountPercentage / 100)
      else inpBMV.purchasePrice) ∧
    (calculatePropertyPlan inpBMV).loanAmount = inpBMV.purchasePrice * inpBMV.loanType ∧
    (snapshotAt (derivedParams inpBMV) inpBMV.startingYear 1).totalAssetValue =
      cohortCompoundedSum (calculatePropertyPlan inpBMV).marketValue
        (inpBMV.appreciationRate / 100) inpBMV.buyInterval 1
        (snapshotAt (derivedParams inpBMV) inpBMV.startingYear 1).propertiesOwned) :=
  ⟨by decide, claim_C5 inpBMV (by decide) 1
    (snapshotAt (derivedParams inpBMV) inpBMV.startingYear 1)
    (generateYearlyData_getElem (derivedParams inpBMV) inpBMV.startingYear 30 1
      (by omega))⟩

/-- C6: the per-property annual rental income is the constant
purchasePrice * rentalYield/100 — it appears unchanged in every year's
cash flow, for every cohort, and does not depend on marketValue or on
the appreciated value. -/
theorem claim_C6 (inp : CalculatorInputs) (y : ℕ) (s : YearlyData)
    (hs : (calculatePropertyPlan inp).yearlyData[y]? = some s) :
    (calculatePropertyPlan inp).annualRentalIncome =
      inp.purchasePrice * (inp.rentalYield / 100) ∧
    s.annualCashFlow =
      (activeLoop (derivedParams inp) y s.propertiesOwned : ℚ) *
        (inp.purchasePrice * (inp.rentalYield / 100) -
          (calculatePropertyPlan inp).monthlyPayment * 12 -
          (calculatePropertyPlan inp).annualExpensePerProperty) := by
  refine ⟨rfl, ?_⟩
  have hsnap := generateYearlyData_entry (derivedParams inp) inp.startingYear 30 y s hs
  subst hsnap
  show genCashLoop (derivedParams inp) y (ownedUpTo (derivedParams inp) y) =
    (activeLoop (derivedParams inp) y (ownedUpTo (derivedParams inp) y) : ℚ) *
      propertyCashFlowPer (derivedParams inp)
  rw [genCashLoop_eq_sim, simCashLoop_eq_active]

/-- C6 witness at the concrete scenario, year 1. -/
theorem claim_C6_witness :
    (calculatePropertyPlan inpW).annualRentalIncome =
      inpW.purchasePrice * (inpW.rentalYield / 100) ∧
    (snapshotAt (derivedParams inpW) inpW.startingYear 1).annualCashFlow =
      (activeLoop (derivedParams inpW) 1
          (snapshotAt (derivedParams inpW) inpW.startingYear 1).propertiesOwned : ℚ) *
        (inpW.purchasePrice * (inpW.rentalYield / 100) -
          (calculatePropertyPlan inpW).monthlyPayment * 12 -
          (calculatePropertyPlan inpW).annualExpensePerProperty) :=
  claim_C6 inpW 1 (snapshotAt (derivedParams inpW) inpW.startingYear 1)
    (generateYearlyData_getElem (derivedParams inpW) inpW.startingYear 30 1 (by omega))

/-- C7: in every yearly snapshot and in every milestone result,
netEquity equals totalAssetValue - totalLoanBalance + cumulativeCashFlow
of that same record. -/
theorem claim_C7 (p : SimParams) (sy : ℤ) (years y : ℕ) (s : YearlyData)
    (hs : (generateYearlyData p sy years)[y]? = some s) (H : ℕ) :
    s.netEquity = s.totalAssetValue - s.totalLoanBalance + s.cumulativeCashFlow ∧
    ( simulatePortfolio p H).netEquity =
      ( simulatePortfolio p H).totalAssetValue -
        ( simulatePortfolio p H).totalLoanBalance +
        ( simulatePortfolio p H).cumulativeCashFlow := by
  have hsnap := generateYearlyData_entry p sy years y s hs
  subst hsnap
  exact ⟨rfl, rfl⟩

/-- C7 witness at the small instance, year 0 and horizon 10. -/
theorem claim_C7_witness :
    (snapshotAt pW 0 0).netEquity =
      (snapshotAt pW 0 0).totalAssetValue - (snapshotAt pW 0 0).totalLoanBalance +
        (snapshotAt pW 0 0).cumulativeCashFlow ∧
    ( simulatePortfolio pW 10).netEquity =
      ( simulatePortfolio pW 10).totalAssetValue -
        ( simulatePortfolio pW 10).totalLoanBalance +
        ( simulatePortfolio pW 10).cumulativeCashFlow :=
  claim_C7 pW 0 30 0 (snapshotAt pW 0 0)
    (generateYearlyData_getElem pW 0 30 0 (by omega)) 10

/-- C8: within one run the ownership count is non-decreasing from year
to year and never exceeds maxProperties (in both entry points, whose
reported propertiesOwned is this count); concretely, with buyInterval 1
and maxProperties 10, propertiesOwned is 10 at year 10. -/
theorem claim_C8 (p : SimParams) (sy : ℤ) (y : ℕ) :
    ownedUpTo p y ≤ ownedUpTo p (y + 1) ∧
    ownedUpTo p y ≤ p.maxProperties ∧
    (snapshotAt p sy y).propertiesOwned = ownedUpTo p y ∧
    ( simulatePortfolio p y).propertiesOwned = ownedUpTo p y ∧
    ( simulatePortfolio (derivedParams inpW) 10).propertiesOwned = 10 :=
  ⟨ownedUpTo_mono p y, ownedUpTo_le_max p y, rfl, rfl, by decide⟩

/-- C9: in the stock overlay series the dividend credited in year Y+1
is the year-Y closing portfolio value times the dividend yield.  (The
overlay engine is modelled from the spec: its implementation is absent
from the snapshot.) -/
theorem claim_C9 (sa : StockAssumptions) (purchasePrice : ℚ)
    (owned : ℕ → ℕ) (acf : ℕ → ℚ) (netEq : ℕ → ℚ) (y : ℕ)
    (hy : y + 1 < 31) :
    ∃ s t,
      (calculateStockReinvestment sa purchasePrice owned acf netEq)[y]? = some s ∧
      (calculateStockReinvestment sa purchasePrice owned acf netEq)[y + 1]? = some t ∧
      t.annualDividendIncome = s.stockPortfolioValue * sa.dividendYield := by
  refine ⟨stockSnapshotAt sa (max 0 (sa.approvedAmount - purchasePrice)) owned acf
      netEq y,
    stockSnapshotAt sa (max 0 (sa.approvedAmount - purchasePrice)) owned acf
      netEq (y + 1), ?_, ?_, rfl⟩
  · show ((List.range 31).map
        (stockSnapshotAt sa (max 0 (sa.approvedAmount - purchasePrice)) owned acf
          netEq))[y]? = _
    rw [List.getElem?_map, List.getElem?_range (by omega)]
    rfl
  · show ((List.range 31).map
        (stockSnapshotAt sa (max 0 (sa.approvedAmount - purchasePrice)) owned acf
          netEq))[y + 1]? = _
    rw [List.getElem?_map, List.getElem?_range hy]
    rfl

/-- C9 witness at trivial overlay inputs and year 0. -/
theorem claim_C9_witness :
    0 + 1 < 31 ∧
    ∃ s t,
      (calculateStockReinvestment saW 0 (fun _ => 0) (fun _ => 0) (fun _ => 0))[0]? =
        some s ∧
      (calculateStockReinvestment saW 0 (fun _ => 0) (fun _ => 0) (fun _ => 0))[0 + 1]? =
        some t ∧
      t.annualDividendIncome = s.stockPortfolioValue * saW.dividendYield :=
  ⟨by decide, claim_C9 saW 0 (fun _ => 0) (fun _ => 0) (fun _ => 0) 0 (by decide)⟩

/-- C10: under the code's own purchase schedule every owned cohort has
age at least 1, so from year 1 on each snapshot satisfies
annualCashFlow = annualRentalIncome - annualMortgagePayment -
annualExpense among its own reported fields, equivalently
propertiesOwned times the per-property cash flow, and the age >= 0
valuation branch coincides with the age > 0 cash-flow gate. -/
theorem claim_C10 (p : SimParams) (hb : 1 ≤ p.buyInterval) (sy : ℤ)
    (years y : ℕ) (s : YearlyData) (_hy : 1 ≤ y)
    (hs : (generateYearlyData p sy years)[y]? = some s) :
    s.annualCashFlow =
      s.annualRentalIncome - s.annualMortgagePayment - s.annualExpense ∧
    s.annualCashFlow = (s.propertiesOwned : ℚ) * propertyCashFlowPer p ∧
    (∀ i, i < s.propertiesOwned → 0 < cohortAge p.buyInterval y i) ∧
    genAssetLoop p y (ownedUpTo p y) = simAssetLoop p y (ownedUpTo p y) ∧
    genCashLoop p y (ownedUpTo p y) = simCashLoop p y (ownedUpTo p y) := by
  have hsnap := generateYearlyData_entry p sy years y s hs
  subst hsnap
  have hactive : activeLoop p y (ownedUpTo p y) = ownedUpTo p y :=
    activeLoop_eq_owned p hb y _ le_rfl
  have hacf : genCashLoop p y (ownedUpTo p y) =
      (ownedUpTo p y : ℚ) * propertyCashFlowPer p := by
    rw [genCashLoop_eq_sim, simCashLoop_eq_active, hactive]
  refine ⟨?_, hacf, fun i hi => cohortAge_pos p hb hi,
    genAssetLoop_eq_sim p hb y _ le_rfl, genCashLoop_eq_sim p y _⟩
  show genCashLoop p y (ownedUpTo p y) =
    (ownedUpTo p y : ℚ) * p.annualRentalIncome -
      (ownedUpTo p y : ℚ) * p.monthlyPayment * 12 -
      (activeLoop p y (ownedUpTo p y) : ℚ) * p.annualExpensePerProperty
  rw [hacf, hactive, propertyCashFlowPer]
  ring

/-- C10 witness at the small instance, year 1. -/
theorem claim_C10_witness :
    1 ≤ pW.buyInterval ∧ 1 ≤ 1 ∧
    ((snapshotAt pW 0 1).annualCashFlow =
      (snapshotAt pW 0 1).annualRentalIncome -
        (snapshotAt pW 0 1).annualMortgagePayment -
        (snapshotAt pW 0 1).annualExpense ∧
    (snapshotAt pW 0 1).annualCashFlow =
      ((snapshotAt pW 0 1).propertiesOwned : ℚ) * propertyCashFlowPer pW ∧
    (∀ i, i < (snapshotAt pW 0 1).propertiesOwned →
      0 < cohortAge pW.buyInterval 1 i) ∧
    genAssetLoop pW 1 (ownedUpTo pW 1) = simAssetLoop pW 1 (ownedUpTo pW 1) ∧
    genCashLoop pW 1 (ownedUpTo pW 1) = simCashLoop pW 1 (ownedUpTo pW 1)) :=
  ⟨by decide, le_rfl, claim_C10 pW (by decide) 0 30 1 (snapshotAt pW 0 1) le_rfl
    (generateYearlyData_getElem pW 0 30 1 (by omega))⟩

end PropertyLab
